import Mathlib

/-!
Formal model of the minapp_tgshop repository: a Telegram admin bot
(src/bot/admin.py) and a read-only HTTP API (src/api/main.py) over a
relational catalog of brands, categories and products (src/bot/models.py).

The database is modelled as lists of rows; SQL lower() / Python .strip()
are modelled by pyLower / pyStrip below; SQLAlchemy sessions are
modelled by all-or-nothing state transitions (an uncommitted session that
raises leaves the stored rows unchanged); a raising Python handler is an
Except.error carrying the world at the raise point, so that the
admin_required decorator can catch it.  Prices (Python floats that no
claim computes with) are modelled as rationals.
-/

namespace TgShop

/-- A row of the brands table (src/bot/models.py, class Brand). -/
structure Brand where
  id : Nat
  name : String
deriving DecidableEq

/-- A row of the categories table (src/bot/models.py, class Category). -/
structure Category where
  id : Nat
  name : String
  brand_id : Nat
deriving DecidableEq

/-- A row of the products table (src/bot/models.py, class Product). -/
structure Product where
  id : Nat
  name : String
  price : ℚ
  photo_url : Option String
  description : Option String
  category_id : Nat
deriving DecidableEq

/-- The whole catalog store. -/
structure Db where
  brands : List Brand
  categories : List Category
  products : List Product
deriving DecidableEq

/-- The FSM states declared in src/bot/admin.py (AddStates, EditStates,
DeleteStates, CategoryStates). -/
inductive FlowState where
  | AddStates_brand_name | AddStates_category_brand | AddStates_category_name
  | AddStates_product_brand | AddStates_product_category | AddStates_product_name
  | AddStates_product_price | AddStates_product_photo | AddStates_product_description
  | EditStates_brand_name | EditStates_category_name | EditStates_category_id
  | EditStates_product_id | EditStates_field | EditStates_new_value
  | DeleteStates_brand_name | DeleteStates_category_name | DeleteStates_product_name
  | DeleteStates_confirm_delete | DeleteStates_select_brand_for_category
  | DeleteStates_search_product
  | CategoryStates_select_brand | CategoryStates_enter_name
  | CategoryStates_edit_select | CategoryStates_edit_enter_name
  | CategoryStates_delete_select | CategoryStates_delete_confirm
deriving DecidableEq

/-- The keys stored via state.update_data in src/bot/admin.py. -/
structure ScratchData where
  brand_id : Option Nat := none
  category_id : Option Nat := none
  product_id : Option Nat := none
  name : Option String := none
  price : Option ℚ := none
  photo_url : Option String := none
  field : Option String := none
  products_page : Option Nat := none
deriving DecidableEq

/-- Per-conversation scratch context: current FSM state plus stored data. -/
structure Scratch where
  state : Option FlowState := none
  data : ScratchData := {}
deriving DecidableEq

/-- state.clear() resets both the FSM state and the stored data. -/
def Scratch.cleared : Scratch := {}

/-- The mutable world a handler acts on: catalog store plus scratch context. -/
structure World where
  db : Db
  scratch : Scratch
deriving DecidableEq

/-- Observable replies a handler sends back to the chat. -/
inductive Output where
  | answer (text : String)
  | alertAnswer (text : String)
  | panel
  | photoMsg (caption : String)
deriving DecidableEq

/-- The configured admin identity list (src/bot/admin.py line 21). -/
def ADMINS : List Nat := [6326719341, 790410251, 6388614116, 8188457128]

/-- src/bot/admin.py, is_admin. -/
def is_admin (user_id : Nat) : Bool := ADMINS.contains user_id

/-- Whether the incoming update is a plain Message or a CallbackQuery
(admin_required answers differently for the two). -/
inductive UpdateKind where
  | message
  | callbackQuery
deriving DecidableEq

/-- The generic access-denied notice sent by admin_required. -/
def deniedNotice : UpdateKind → Output
  | .message => .answer "🚫 Доступ запрещён"
  | .callbackQuery => .alertAnswer "🚫 Доступ запрещён"

/-- The generic error notice sent by admin_required when the wrapped
handler raises. -/
def errorNotice : UpdateKind → Output
  | .message => .answer "❌ Произошла ошибка"
  | .callbackQuery => .alertAnswer "❌ Произошла ошибка"

/-- A handler body: acts on the world and either finishes with outputs or
raises, in which case the carried world is the state at the raise point
(database changes of an uncommitted session are rolled back by the
session context manager, so a raising body carries its pre-commit rows). -/
def HandlerFn : Type := World → Except World (World × List Output)

/-- src/bot/admin.py, admin_required (lines 66-96): every router handler is
wrapped in this decorator; non-admin senders get only the generic denied
notice and the handler body never runs; a raising body is caught and
answered with the generic error notice. -/
def admin_required (handler : HandlerFn) (kind : UpdateKind)
    (user_id : Nat) (w : World) : World × List Output :=
  if is_admin user_id then
    match handler w with
    | Except.ok r => r
    | Except.error w2 => (w2, [errorNotice kind])
  else
    (w, [deniedNotice kind])

/-- Python str.strip(): drop leading and trailing whitespace.  Written by
structural recursion over the character list so that the kernel can
evaluate it on concrete inputs. -/
def pyStrip (s : String) : String :=
  String.mk (((s.data.dropWhile Char.isWhitespace).reverse.dropWhile
    Char.isWhitespace).reverse)

/-- Python str.lower() / SQL lower(), for the ASCII names this catalog
handles.  Written over the character list so that the kernel can evaluate
it on concrete inputs. -/
def pyLower (s : String) : String :=
  String.mk (s.data.map Char.toLower)

/-- Fresh surrogate id for a new brand row (autoincrement). -/
def nextBrandId (db : Db) : Nat :=
  (db.brands.map Brand.id).foldr max 0 + 1

/-- Fresh surrogate id for a new category row (autoincrement). -/
def nextCategoryId (db : Db) : Nat :=
  (db.categories.map Category.id).foldr max 0 + 1

/-- Fresh surrogate id for a new product row (autoincrement). -/
def nextProductId (db : Db) : Nat :=
  (db.products.map Product.id).foldr max 0 + 1

/-- src/bot/admin.py, add_brand_finish (lines 328-359).  The handler has
its own try/except/finally: every path that reaches the try block ends
with state.clear() and a return to the admin panel; an empty (stripped)
name re-prompts without touching anything.  commitOk = false models the
session commit raising, in which case nothing is persisted.  (The
duplicate probe scalar_one_or_none can only see zero or one row here
because the brands table keeps names unique.) -/
def add_brand_finish (commitOk : Bool) (text : String) (w : World) :
    World × List Output :=
  let brand_name := (pyStrip text)
  if brand_name = "" then
    (w, [Output.answer "❌ Название бренда не может быть пустым. Попробуйте снова:"])
  else if w.db.brands.any (fun b => pyLower b.name == pyLower brand_name) then
    ({ w with scratch := Scratch.cleared },
     [Output.answer ("❌ Бренд " ++ brand_name ++ " уже существует!"), Output.panel])
  else if commitOk then
    ({ db := { w.db with brands := w.db.brands ++ [⟨nextBrandId w.db, brand_name⟩] },
       scratch := Scratch.cleared },
     [Output.answer ("✅ Бренд " ++ brand_name ++ " успешно добавлен!"), Output.panel])
  else
    ({ w with scratch := Scratch.cleared },
     [Output.answer "❌ Произошла ошибка при добавлении бренда", Output.panel])

/-- The database effect of src/bot/admin.py, execute_brand_delete
(lines 558-597): every category of the brand is deleted (each deletion
cascading to that category's products through the ORM relationship
cascade), then the brand itself, all inside one commit. -/
def cascade_delete_brand (db : Db) (brand_id : Nat) : Db :=
  let deleted_cats := db.categories.filter (fun c => c.brand_id == brand_id)
  { brands := db.brands.filter (fun b => !(b.id == brand_id)),
    categories := db.categories.filter (fun c => !(c.brand_id == brand_id)),
    products := db.products.filter
      (fun p => !(deleted_cats.any (fun c => c.id == p.category_id))) }

/-- src/bot/admin.py, execute_brand_delete (lines 558-597).  The handler
has try/except/finally; the finally block clears the scratch context and
returns to the admin panel on every path.  A raising commit is caught by
the except branch and, the session being uncommitted, persists nothing. -/
def execute_brand_delete (commitOk : Bool) (w : World) : World × List Output :=
  match w.scratch.data.brand_id with
  | none =>
      ({ w with scratch := Scratch.cleared },
       [Output.answer "❌ Бренд не выбран", Output.panel])
  | some brand_id =>
      match w.db.brands.find? (fun b => b.id == brand_id) with
      | none =>
          ({ w with scratch := Scratch.cleared },
           [Output.answer "❌ Бренд не найден", Output.panel])
      | some brand =>
          if commitOk then
            ({ db := cascade_delete_brand w.db brand_id,
               scratch := Scratch.cleared },
             [Output.answer ("✅ Бренд успешно удалён:\nНазвание: " ++ brand.name
                ++ "\nID: " ++ toString brand_id), Output.panel])
          else
            ({ w with scratch := Scratch.cleared },
             [Output.answer "❌ Произошла ошибка при удалении бренда", Output.panel])

/-- src/bot/admin.py, save_new_category (lines 1233-1271).  All paths run
inside try/finally, so the scratch context is cleared on every outcome;
the duplicate probe is scoped to (brand_id, lower(name)); a missing
brand_id key or a raising commit ends in the except branch with nothing
persisted. -/
def save_new_category (commitOk : Bool) (text : String) (w : World) :
    World × List Output :=
  let category_name := (pyStrip text)
  if category_name = "" then
    ({ w with scratch := Scratch.cleared },
     [Output.answer "❌ Название не может быть пустым. Введите снова:"])
  else
    match w.scratch.data.brand_id with
    | none =>
        ({ w with scratch := Scratch.cleared },
         [Output.answer "❌ Ошибка при сохранении категории"])
    | some brand_id =>
        if w.db.categories.any (fun c =>
            c.brand_id == brand_id && pyLower c.name == pyLower category_name) then
          ({ w with scratch := Scratch.cleared },
           [Output.answer "❌ Категория с таким названием уже существует"])
        else if commitOk then
          ({ db := { w.db with categories :=
                w.db.categories ++ [⟨nextCategoryId w.db, category_name, brand_id⟩] },
             scratch := Scratch.cleared },
           [Output.answer ("✅ Категория " ++ category_name ++ " успешно добавлена"),
            Output.panel])
        else
          ({ w with scratch := Scratch.cleared },
           [Output.answer "❌ Ошибка при сохранении категории"])

/-- src/bot/admin.py, add_product_finish (lines 799-831).  Unlike the
brand and category finish handlers, this body has no try/except of its
own: a missing scratch key (KeyError) or a raising commit propagates to
the admin_required wrapper, leaving the scratch context untouched and the
uncommitted session rows unpersisted.  The description input - is the
sentinel for no description. -/
def add_product_finish (commitOk : Bool) (text : String) : HandlerFn :=
  fun w =>
    match w.scratch.data.name, w.scratch.data.price,
          w.scratch.data.photo_url, w.scratch.data.category_id with
    | some name, some price, some photo_url, some category_id =>
        let description : Option String := if text = "-" then none else some text
        if commitOk then
          Except.ok
            ({ db := { w.db with products := w.db.products ++
                  [⟨nextProductId w.db, name, price, some photo_url,
                    description, category_id⟩] },
               scratch := Scratch.cleared },
             [Output.photoMsg ("✅ Товар добавлен (ID: "
                ++ toString (nextProductId w.db) ++ ")\nНазвание: " ++ name
                ++ "\nОписание: " ++ description.getD "Без описания"),
              Output.panel])
        else
          Except.error w
    | _, _, _, _ => Except.error w

/-- Map the product row with the given id through f (session.get +
setattr + commit). -/
def update_product (db : Db) (product_id : Nat) (f : Product → Product) : Db :=
  { db with products :=
      db.products.map (fun p => if p.id == product_id then f p else p) }

/-- Whether a product row with this id exists (session.get succeeding). -/
def product_exists (db : Db) (product_id : Nat) : Bool :=
  db.products.any (fun p => p.id == product_id)

/-- src/bot/admin.py, save_product_changes (lines 959-1005), for a plain
text message (message.photo empty).  parse_price stands for Python
float(); an unparsable price re-prompts without clearing state.  The
field key is one of name, price, description, photo_url (the only values
the edit_field callbacks store); with a text message and field photo_url
the value stays None and is assigned as-is.  A missing scratch key or
product row, and a raising commit, propagate to the admin_required
wrapper with nothing persisted. -/
def save_product_changes (parse_price : String → Option ℚ) (commitOk : Bool)
    (text : String) : HandlerFn :=
  fun w =>
    match w.scratch.data.field, w.scratch.data.product_id with
    | some fld, some product_id =>
        if fld = "description" then
          let v : Option String := if text = "-" then none else some text
          if commitOk && product_exists w.db product_id then
            Except.ok
              ({ db := update_product w.db product_id
                    (fun p => { p with description := v }),
                 scratch := Scratch.cleared },
               [Output.answer "✅ Description успешно обновлено", Output.panel])
          else Except.error w
        else if fld = "price" then
          match parse_price text with
          | none => Except.ok (w, [Output.answer "❌ Введите корректную цену"])
          | some q =>
              if commitOk && product_exists w.db product_id then
                Except.ok
                  ({ db := update_product w.db product_id
                        (fun p => { p with price := q }),
                     scratch := Scratch.cleared },
                   [Output.answer "✅ Price успешно обновлено", Output.panel])
              else Except.error w
        else if fld = "name" then
          if commitOk && product_exists w.db product_id then
            Except.ok
              ({ db := update_product w.db product_id
                    (fun p => { p with name := text }),
                 scratch := Scratch.cleared },
               [Output.answer "✅ Name успешно обновлено", Output.panel])
          else Except.error w
        else if fld = "photo_url" then
          if commitOk && product_exists w.db product_id then
            Except.ok
              ({ db := update_product w.db product_id
                    (fun p => { p with photo_url := none }),
                 scratch := Scratch.cleared },
               [Output.answer "✅ Photo_url успешно обновлено", Output.panel])
          else Except.error w
        else Except.error w
    | _, _ => Except.error w

/-- The description column of the product row with the given id after a
handler result (none when the handler raised or the row is absent). -/
def product_description_in (r : Except World (World × List Output))
    (product_id : Nat) : Option (Option String) :=
  match r with
  | Except.ok (w2, _) =>
      (w2.db.products.find? (fun p => p.id == product_id)).map Product.description
  | Except.error _ => none

/-- The description column of the most recently inserted product row
after a handler result. -/
def added_description (r : Except World (World × List Output)) :
    Option (Option String) :=
  match r with
  | Except.ok (w2, _) => (w2.db.products.map Product.description).getLast?
  | Except.error _ => none

/-- src/bot/admin.py, get_brands (lines 100-102): SELECT brands ORDER BY
name. -/
def bot_get_brands (db : Db) : List Brand :=
  db.brands.mergeSort (fun a b => decide (a.name ≤ b.name))

/-- src/bot/admin.py, send_paginated_message (lines 145-177): the computed
page count. -/
def total_pages (total_items items_per_page : Nat) : Nat :=
  (total_items + items_per_page - 1) / items_per_page

/-- src/bot/admin.py, send_paginated_message (lines 145-177): the slice of
items rendered on the given page (items[start_idx:end_idx]). -/
def page_slice {α : Type} (items : List α) (items_per_page current_page : Nat) :
    List α :=
  let total_items := items.length
  let start_idx := current_page * items_per_page
  let end_idx := min (start_idx + items_per_page) total_items
  (items.drop start_idx).take (end_idx - start_idx)

/-- The brand serialization of src/api/main.py (id, name). -/
structure BrandJson where
  id : Nat
  name : String
deriving DecidableEq

/-- The category serialization of src/api/main.py (id, name). -/
structure CategoryJson where
  id : Nat
  name : String
deriving DecidableEq

/-- The product serialization of src/api/main.py. -/
structure ProductJson where
  id : Nat
  name : String
  price : ℚ
  photo_url : Option String
  description : Option String
deriving DecidableEq

/-- An HTTP endpoint result: a JSON body with status 200, or an
HTTPException with a status code and a detail string. -/
inductive ApiResponse (α : Type) where
  | ok (body : α)
  | httpError (status : Nat) (detail : String)
deriving DecidableEq

namespace api

/-- src/api/main.py, get_brands (lines 17-26): plain SELECT with no
order_by; any exception e is answered with HTTPException(500, str(e)).
The argument models the database read: ok with the stored rows, or error
with the stringified exception. -/
def get_brands (dbr : Except String Db) : ApiResponse (List BrandJson) :=
  match dbr with
  | Except.ok db => ApiResponse.ok (db.brands.map (fun b => ⟨b.id, b.name⟩))
  | Except.error e => ApiResponse.httpError 500 e

/-- src/api/main.py, get_categories (lines 29-37): SELECT categories WHERE
brand_id with no order_by; exceptions as in get_brands. -/
def get_categories (brand_id : Nat) (dbr : Except String Db) :
    ApiResponse (List CategoryJson) :=
  match dbr with
  | Except.ok db => ApiResponse.ok
      ((db.categories.filter (fun c => c.brand_id == brand_id)).map
        (fun c => ⟨c.id, c.name⟩))
  | Except.error e => ApiResponse.httpError 500 e

/-- src/api/main.py, get_products (lines 40-54): SELECT products WHERE
category_id with no order_by; exceptions as in get_brands. -/
def get_products (category_id : Nat) (dbr : Except String Db) :
    ApiResponse (List ProductJson) :=
  match dbr with
  | Except.ok db => ApiResponse.ok
      ((db.products.filter (fun p => p.category_id == category_id)).map
        (fun p => ⟨p.id, p.name, p.price, p.photo_url, p.description⟩))
  | Except.error e => ApiResponse.httpError 500 e

end api

/-- The body returned by api.get_brands on a successful read. -/
def api_brand_rows (db : Db) : List BrandJson :=
  match api.get_brands (Except.ok db) with
  | ApiResponse.ok l => l
  | ApiResponse.httpError _ _ => []

/-- A tiny concrete world used by the witnesses below. -/
def exWorld : World :=
  { db := { brands := [⟨1, "Acme"⟩], categories := [⟨1, "Shoes", 1⟩],
            products := [⟨1, "Loafer", (19999 : ℚ)/100, some "products/a.jpg",
                          some "Classic", 1⟩] },
    scratch := {} }

/-- exWorld about to confirm deletion of brand 1. -/
def exWorldDel : World :=
  { db := exWorld.db,
    scratch := { state := some FlowState.DeleteStates_confirm_delete,
                 data := { brand_id := some 1 } } }

/-- exWorld at the last step of the add-product flow, with the scratch
data the earlier steps stored. -/
def exWorldProd : World :=
  { db := exWorld.db,
    scratch := { state := some FlowState.AddStates_product_description,
                 data := { category_id := some 1, name := some "Boot",
                           price := some (50 : ℚ),
                           photo_url := some "products/b.jpg" } } }

/-- exWorld about to save an edited product description for product 1. -/
def exWorldEdit : World :=
  { db := exWorld.db,
    scratch := { state := some FlowState.EditStates_field,
                 data := { product_id := some 1,
                           field := some "description" } } }

/-- A store whose insertion order disagrees with name order. -/
def exDbUnsorted : Db :=
  { brands := [⟨1, "b"⟩, ⟨2, "a"⟩], categories := [], products := [] }

end TgShop

namespace TgShop

/-- C1: any admin message or callback whose sender is not in ADMINS is
rejected by the admin_required wrapper with only the generic access-denied
notice; the wrapped handler never runs, so neither the catalog store nor
the per-conversation scratch context changes. -/
theorem admin_required_rejects_unauthorized
    (handler : HandlerFn) (kind : UpdateKind) (user_id : Nat) (w : World)
    (h : is_admin user_id = false) :
    admin_required handler kind user_id w = (w, [deniedNotice kind]) ∧
    (admin_required handler kind user_id w).1.db = w.db ∧
    (admin_required handler kind user_id w).1.scratch = w.scratch := by
  simp [admin_required, h]

/-- Witness for C1 at a concrete non-admin sender id 0. -/
theorem admin_required_rejects_unauthorized_witness :
    admin_required (fun w => Except.ok (w, []))
        UpdateKind.message 0 exWorld
      = (exWorld, [deniedNotice UpdateKind.message]) ∧
    (admin_required (fun w => Except.ok (w, []))
        UpdateKind.message 0 exWorld).1.db = exWorld.db ∧
    (admin_required (fun w => Except.ok (w, []))
        UpdateKind.message 0 exWorld).1.scratch = exWorld.scratch :=
  admin_required_rejects_unauthorized _ _ 0 exWorld (by decide)

/-- After a full cascade the deleted brand id has no surviving brand row,
no surviving category, and no surviving product of a deleted category. -/
theorem cascade_delete_brand_no_orphans (db : Db) (brand_id : Nat) :
    (∀ b ∈ (cascade_delete_brand db brand_id).brands, b.id ≠ brand_id) ∧
    (∀ c ∈ (cascade_delete_brand db brand_id).categories,
       c.brand_id ≠ brand_id) ∧
    (∀ p ∈ (cascade_delete_brand db brand_id).products,
       ∀ c ∈ db.categories, c.brand_id = brand_id → p.category_id ≠ c.id) := by
  refine ⟨?_, ?_, ?_⟩
  · intro b hbm
    simp only [cascade_delete_brand, List.mem_filter] at hbm
    simpa using hbm.2
  · intro c hcm
    simp only [cascade_delete_brand, List.mem_filter] at hcm
    simpa using hcm.2
  · intro p hpm c hcm hcb hpc
    simp only [cascade_delete_brand, List.mem_filter] at hpm
    have h2 := hpm.2
    simp only [Bool.not_eq_eq_eq_not, Bool.not_true, List.any_eq_false,
      List.mem_filter, beq_iff_eq, not_and] at h2
    exact h2 c ⟨hcm, hcb⟩ hpc.symm

/-- C2: for a brand with at least one category, the confirmed delete
either removes the brand together with all its categories and,
transitively, all their products (no category still references the brand,
no product still references a deleted category), or leaves the store
untouched; a partial deletion is unreachable. -/
theorem execute_brand_delete_cascades_or_noop
    (commitOk : Bool) (w : World) (brand_id : Nat)
    (hb : w.scratch.data.brand_id = some brand_id)
    (_hcat : ∃ c ∈ w.db.categories, c.brand_id = brand_id) :
    ((∀ b ∈ (execute_brand_delete commitOk w).1.db.brands, b.id ≠ brand_id) ∧
     (∀ c ∈ (execute_brand_delete commitOk w).1.db.categories,
        c.brand_id ≠ brand_id) ∧
     (∀ p ∈ (execute_brand_delete commitOk w).1.db.products,
        ∀ c ∈ w.db.categories, c.brand_id = brand_id → p.category_id ≠ c.id)) ∨
    (execute_brand_delete commitOk w).1.db = w.db := by
  cases hfind : w.db.brands.find? (fun b => b.id == brand_id) with
  | none =>
    refine Or.inr ?_
    simp [execute_brand_delete, hb, hfind]
  | some brand =>
    cases commitOk with
    | false =>
      refine Or.inr ?_
      simp [execute_brand_delete, hb, hfind]
    | true =>
      have hred : (execute_brand_delete true w).1.db
          = cascade_delete_brand w.db brand_id := by
        simp [execute_brand_delete, hb, hfind]
      rw [hred]
      exact Or.inl (cascade_delete_brand_no_orphans w.db brand_id)

/-- Witness for C2: deleting brand 1 of exWorldDel (which owns category 1
and, through it, product 1). -/
theorem execute_brand_delete_cascades_or_noop_witness :
    ((∀ b ∈ (execute_brand_delete true exWorldDel).1.db.brands, b.id ≠ 1) ∧
     (∀ c ∈ (execute_brand_delete true exWorldDel).1.db.categories,
        c.brand_id ≠ 1) ∧
     (∀ p ∈ (execute_brand_delete true exWorldDel).1.db.products,
        ∀ c ∈ exWorldDel.db.categories, c.brand_id = 1 → p.category_id ≠ c.id)) ∨
    (execute_brand_delete true exWorldDel).1.db = exWorldDel.db :=
  execute_brand_delete_cascades_or_noop true exWorldDel 1 rfl (by decide)

/-- Branch equation: add_brand_finish inserting a brand not stored yet. -/
theorem add_brand_finish_success (w : World) (text : String)
    (h : (pyStrip text) ≠ "")
    (hnot : ¬ ∃ b ∈ w.db.brands, pyLower b.name = pyLower (pyStrip text)) :
    add_brand_finish true text w
      = ({ db := { w.db with brands :=
              w.db.brands ++ [⟨nextBrandId w.db, (pyStrip text)⟩] },
           scratch := Scratch.cleared },
         [Output.answer ("✅ Бренд " ++ (pyStrip text) ++ " успешно добавлен!"),
          Output.panel]) := by
  simp [add_brand_finish, h, hnot]

/-- Branch equation: add_brand_finish rejecting a duplicate name. -/
theorem add_brand_finish_dup (commitOk : Bool) (w : World) (text : String)
    (h : (pyStrip text) ≠ "")
    (hyes : ∃ b ∈ w.db.brands, pyLower b.name = pyLower (pyStrip text)) :
    add_brand_finish commitOk text w
      = ({ w with scratch := Scratch.cleared },
         [Output.answer ("❌ Бренд " ++ (pyStrip text) ++ " уже существует!"),
          Output.panel]) := by
  simp [add_brand_finish, h, hyes]

/-- C6: with no brand of that (case-insensitive) name stored yet, adding a
brand and then adding it again in any letter case rejects the second
attempt with a duplicate error and leaves exactly one brand of that name
in the store. -/
theorem add_brand_twice_rejected
    (w : World) (text1 text2 : String)
    (h1 : (pyStrip text1) ≠ "") (h2 : (pyStrip text2) ≠ "")
    (hcase : pyLower (pyStrip text2) = pyLower (pyStrip text1))
    (hnew : ∀ b ∈ w.db.brands, pyLower b.name ≠ pyLower (pyStrip text1)) :
    (add_brand_finish true text2 (add_brand_finish true text1 w).1).1.db
      = (add_brand_finish true text1 w).1.db ∧
    (add_brand_finish true text2 (add_brand_finish true text1 w).1).2
      = [Output.answer ("❌ Бренд " ++ (pyStrip text2) ++ " уже существует!"),
         Output.panel] ∧
    ((add_brand_finish true text2 (add_brand_finish true text1 w).1).1.db.brands.filter
        (fun b => pyLower b.name == pyLower (pyStrip text1))).length = 1 := by
  have hnot : ¬ ∃ b ∈ w.db.brands, pyLower b.name = pyLower (pyStrip text1) := by
    rintro ⟨b, hb, hb2⟩
    exact hnew b hb hb2
  have e1 := add_brand_finish_success w text1 h1 hnot
  have hyes : ∃ b ∈ (add_brand_finish true text1 w).1.db.brands,
      pyLower b.name = pyLower (pyStrip text2) := by
    rw [e1]
    exact ⟨⟨nextBrandId w.db, (pyStrip text1)⟩, by simp, by simp [hcase]⟩
  have e2 := add_brand_finish_dup true (add_brand_finish true text1 w).1 text2
    h2 hyes
  refine ⟨?_, ?_, ?_⟩
  · rw [e2]
  · rw [e2]
  · rw [e2]
    show ((add_brand_finish true text1 w).1.db.brands.filter
        (fun b => pyLower b.name == pyLower (pyStrip text1))).length = 1
    rw [e1, List.filter_append]
    have hfilter1 : w.db.brands.filter
        (fun b => pyLower b.name == pyLower (pyStrip text1)) = [] := by
      simp only [List.filter_eq_nil_iff, beq_iff_eq]
      exact hnew
    rw [hfilter1]
    simp

/-- Witness for C6: adding Acme then a second, differently-cased ACME to
an empty store. -/
theorem add_brand_twice_rejected_witness :
    (add_brand_finish true " ACME "
        (add_brand_finish true "Acme" ⟨⟨[], [], []⟩, {}⟩).1).1.db
      = (add_brand_finish true "Acme" ⟨⟨[], [], []⟩, {}⟩).1.db ∧
    (add_brand_finish true " ACME "
        (add_brand_finish true "Acme" ⟨⟨[], [], []⟩, {}⟩).1).2
      = [Output.answer ("❌ Бренд " ++ (pyStrip " ACME ") ++ " уже существует!"),
         Output.panel] ∧
    ((add_brand_finish true " ACME "
        (add_brand_finish true "Acme" ⟨⟨[], [], []⟩, {}⟩).1).1.db.brands.filter
        (fun b => pyLower b.name == pyLower (pyStrip "Acme"))).length = 1 :=
  add_brand_twice_rejected ⟨⟨[], [], []⟩, {}⟩ "Acme" " ACME "
    (by decide) (by decide) (by decide) (by decide)

/-- C5: category names are unique per (brand_id, lowercased name): a
duplicate under the same brand is rejected with the catalog unchanged,
while the same name under a different brand (no same-brand clash) is
inserted. -/
theorem save_new_category_scoped_uniqueness
    (w : World) (brand_id : Nat) (text : String) (commitOk : Bool)
    (hb : w.scratch.data.brand_id = some brand_id)
    (ht : (pyStrip text) ≠ "") :
    ((∃ c ∈ w.db.categories, c.brand_id = brand_id ∧
        pyLower c.name = pyLower (pyStrip text)) →
      (save_new_category commitOk text w).1.db = w.db ∧
      (save_new_category commitOk text w).2
        = [Output.answer "❌ Категория с таким названием уже существует"]) ∧
    ((∀ c ∈ w.db.categories, c.brand_id = brand_id →
        pyLower c.name ≠ pyLower (pyStrip text)) →
      (save_new_category true text w).1.db.categories
        = w.db.categories ++ [⟨nextCategoryId w.db, (pyStrip text), brand_id⟩]) := by
  constructor
  · intro ⟨c, hcm, hcb, hcn⟩
    have hyes : ∃ c ∈ w.db.categories,
        c.brand_id = brand_id ∧ pyLower c.name = pyLower (pyStrip text) :=
      ⟨c, hcm, hcb, hcn⟩
    constructor <;> simp [save_new_category, ht, hb, hyes]
  · intro hno
    have hnot : ¬ ∃ c ∈ w.db.categories,
        c.brand_id = brand_id ∧ pyLower c.name = pyLower (pyStrip text) := by
      rintro ⟨c, hcm, hcb, hcn⟩
      exact hno c hcm hcb hcn
    simp [save_new_category, ht, hb, hnot]

/-- Witness for C5: adding Shoes under brand 2 while brand 1 already has a
Shoes category succeeds (the same-brand clash hypothesis holds). -/
theorem save_new_category_scoped_uniqueness_witness :
    ((∃ c ∈ (World.mk exWorld.db
        ⟨some FlowState.CategoryStates_enter_name,
         { brand_id := some 2 }⟩).db.categories, c.brand_id = 2 ∧
        pyLower c.name = pyLower (pyStrip "Shoes")) →
      (save_new_category true "Shoes" (World.mk exWorld.db
        ⟨some FlowState.CategoryStates_enter_name,
         { brand_id := some 2 }⟩)).1.db
        = (World.mk exWorld.db
        ⟨some FlowState.CategoryStates_enter_name,
         { brand_id := some 2 }⟩).db ∧
      (save_new_category true "Shoes" (World.mk exWorld.db
        ⟨some FlowState.CategoryStates_enter_name,
         { brand_id := some 2 }⟩)).2
        = [Output.answer "❌ Категория с таким названием уже существует"]) ∧
    ((∀ c ∈ (World.mk exWorld.db
        ⟨some FlowState.CategoryStates_enter_name,
         { brand_id := some 2 }⟩).db.categories, c.brand_id = 2 →
        pyLower c.name ≠ pyLower (pyStrip "Shoes")) →
      (save_new_category true "Shoes" (World.mk exWorld.db
        ⟨some FlowState.CategoryStates_enter_name,
         { brand_id := some 2 }⟩)).1.db.categories
        = (World.mk exWorld.db
        ⟨some FlowState.CategoryStates_enter_name,
         { brand_id := some 2 }⟩).db.categories
          ++ [⟨nextCategoryId (World.mk exWorld.db
        ⟨some FlowState.CategoryStates_enter_name,
         { brand_id := some 2 }⟩).db, (pyStrip "Shoes"), 2⟩]) :=
  save_new_category_scoped_uniqueness
    (World.mk exWorld.db
      ⟨some FlowState.CategoryStates_enter_name, { brand_id := some 2 }⟩)
    2 "Shoes" true rfl (by decide)

/-- C3 counterexample: the error body of the public read endpoints is not
a fixed generic message — it carries the stringified exception, so two
different database failures produce two different bodies. -/
theorem api_error_detail_not_generic_cex :
    ¬ (∀ e1 e2 : String,
        api.get_brands (Except.error e1) = api.get_brands (Except.error e2) ∧
        api.get_categories 1 (Except.error e1)
          = api.get_categories 1 (Except.error e2) ∧
        api.get_products 1 (Except.error e1)
          = api.get_products 1 (Except.error e2)) := by
  intro h
  exact absurd (h "boom" "crash").1 (by decide)

/-- C3 (amended): when the underlying database operation fails, each
public read endpoint answers with HTTP status 500, but the detail field of
the body is the stringified exception itself — the internal failure text
is exposed rather than a generic message. -/
theorem api_error_responses_expose_detail (e : String) :
    api.get_brands (Except.error e) = ApiResponse.httpError 500 e ∧
    (∀ brand_id, api.get_categories brand_id (Except.error e)
       = ApiResponse.httpError 500 e) ∧
    (∀ category_id, api.get_products category_id (Except.error e)
       = ApiResponse.httpError 500 e) :=
  ⟨rfl, fun _ => rfl, fun _ => rfl⟩

/-- Branch equation: add_brand_finish when the commit raises (nothing is
persisted, the scratch context is cleared by the finally block, the
operator sees the error message). -/
theorem add_brand_finish_fail (w : World) (text : String)
    (h : pyStrip text ≠ "")
    (hnot : ¬ ∃ b ∈ w.db.brands, pyLower b.name = pyLower (pyStrip text)) :
    add_brand_finish false text w
      = ({ w with scratch := Scratch.cleared },
         [Output.answer "❌ Произошла ошибка при добавлении бренда",
          Output.panel]) := by
  simp [add_brand_finish, h, hnot]

/-- add_product_finish with a raising commit (or a missing scratch key)
always raises into the wrapper, carrying the untouched world. -/
theorem add_product_finish_commit_error (text : String) (w : World) :
    add_product_finish false text w = Except.error w := by
  unfold add_product_finish
  cases w.scratch.data.name <;> cases w.scratch.data.price <;>
    cases w.scratch.data.photo_url <;> cases w.scratch.data.category_id <;> simp

/-- C4 counterexample: a commit failure at the add-product finish step
(run by an authorized admin) shows only the wrapper's generic error and
leaves the scratch context uncleared — the FSM state and the stored
product data survive into the next interaction, contradicting the claim
that every step clears scratch on a persistence error. -/
theorem add_product_finish_error_keeps_scratch_cex :
    (admin_required (add_product_finish false "desc") UpdateKind.message
        6326719341 exWorldProd).1.scratch ≠ Scratch.cleared ∧
    (admin_required (add_product_finish false "desc") UpdateKind.message
        6326719341 exWorldProd).1.scratch.state
      = some FlowState.AddStates_product_description ∧
    (admin_required (add_product_finish false "desc") UpdateKind.message
        6326719341 exWorldProd).1.scratch.data.name = some "Boot" := by
  refine ⟨by decide, by decide, by decide⟩

/-- C4 (amended): a persistence error aborts the flow with a visible
error and persists nothing, but only flows whose finish handler has its
own try/finally (such as add-brand) clear the scratch context; at the
add-product finish step the wrapper shows the generic error while FSM
state and stored data remain as they were. -/
theorem persistence_error_abort_behavior
    (w : World) (text : String) (kind : UpdateKind) (user_id : Nat)
    (hadmin : is_admin user_id = true)
    (ht : pyStrip text ≠ "")
    (hnodup : ∀ b ∈ w.db.brands, pyLower b.name ≠ pyLower (pyStrip text)) :
    ((add_brand_finish false text w).1.db = w.db ∧
     (add_brand_finish false text w).1.scratch = Scratch.cleared ∧
     (add_brand_finish false text w).2
       = [Output.answer "❌ Произошла ошибка при добавлении бренда",
          Output.panel]) ∧
    ((admin_required (add_product_finish false text) kind user_id w).1.db
       = w.db ∧
     (admin_required (add_product_finish false text) kind user_id w).1.scratch
       = w.scratch ∧
     (admin_required (add_product_finish false text) kind user_id w).2
       = [errorNotice kind]) := by
  have hnot : ¬ ∃ b ∈ w.db.brands, pyLower b.name = pyLower (pyStrip text) := by
    rintro ⟨b, hb, hb2⟩
    exact hnodup b hb hb2
  have e1 := add_brand_finish_fail w text ht hnot
  have e2 := add_product_finish_commit_error text w
  refine ⟨⟨?_, ?_, ?_⟩, ?_, ?_, ?_⟩ <;> simp [e1, e2, admin_required, hadmin]

/-- Witness for C4 (amended) at a concrete admin, world and input. -/
theorem persistence_error_abort_behavior_witness :
    ((add_brand_finish false "NewBrand" exWorldProd).1.db = exWorldProd.db ∧
     (add_brand_finish false "NewBrand" exWorldProd).1.scratch
       = Scratch.cleared ∧
     (add_brand_finish false "NewBrand" exWorldProd).2
       = [Output.answer "❌ Произошла ошибка при добавлении бренда",
          Output.panel]) ∧
    ((admin_required (add_product_finish false "NewBrand") UpdateKind.message
        790410251 exWorldProd).1.db = exWorldProd.db ∧
     (admin_required (add_product_finish false "NewBrand") UpdateKind.message
        790410251 exWorldProd).1.scratch = exWorldProd.scratch ∧
     (admin_required (add_product_finish false "NewBrand") UpdateKind.message
        790410251 exWorldProd).2 = [errorNotice UpdateKind.message]) :=
  persistence_error_abort_behavior exWorldProd "NewBrand" UpdateKind.message
    790410251 (by decide) (by decide) (by decide)

/-- C7: for N > 0 items and page size P > 0, send_paginated_message
computes ceil(N / P) total pages, page 0 renders the slice [0, P), and
the last page renders N mod P items (P when P divides N). -/
theorem send_paginated_message_pagination {α : Type} (items : List α)
    (P : Nat) (hN : items ≠ []) (hP : 0 < P) :
    total_pages items.length P = items.length ⌈/⌉ P ∧
    page_slice items P 0 = items.take P ∧
    (page_slice items P (total_pages items.length P - 1)).length
      = if items.length % P = 0 then P else items.length % P := by
  have hN0 : 0 < items.length := List.length_pos.mpr hN
  refine ⟨(Nat.ceilDiv_eq_add_pred_div _ _).symm, ?_, ?_⟩
  · simp only [page_slice]
    rw [Nat.zero_mul, List.drop_zero, Nat.zero_add, Nat.sub_zero,
      List.take_eq_take]
    omega
  · have hdm := Nat.div_add_mod items.length P
    have hrlt : items.length % P < P := Nat.mod_lt _ hP
    by_cases h0 : items.length % P = 0
    · have hq1 : 1 ≤ items.length / P := by
        rcases Nat.eq_zero_or_pos (items.length / P) with hq | hq
        · rw [hq] at hdm
          omega
        · exact hq
      obtain ⟨q1, hq⟩ : ∃ q1, items.length / P = q1 + 1 :=
        ⟨items.length / P - 1, by omega⟩
      have hmul : P * (q1 + 1) = P * q1 + P := by ring
      have hkey : items.length = P * q1 + P := by
        rw [hq] at hdm
        omega
      have htp : total_pages items.length P = q1 + 1 := by
        unfold total_pages
        have h1 : items.length + P - 1 = P * (q1 + 1) + (P - 1) := by omega
        rw [h1, Nat.mul_add_div hP, Nat.div_eq_of_lt (by omega)]
      have hslice : (page_slice items P
          (total_pages items.length P - 1)).length = P := by
        rw [htp]
        simp only [page_slice, Nat.add_sub_cancel]
        rw [List.length_take, List.length_drop]
        have hc : q1 * P = P * q1 := Nat.mul_comm _ _
        omega
      rw [if_pos h0, hslice]
    · obtain ⟨q, hqdef⟩ : ∃ q, items.length / P = q := ⟨_, rfl⟩
      obtain ⟨r, hrdef⟩ : ∃ r, items.length % P = r := ⟨_, rfl⟩
      rw [hqdef, hrdef] at hdm
      rw [hrdef] at h0 hrlt ⊢
      have hmul : P * (q + 1) = P * q + P := by ring
      have htp : total_pages items.length P = q + 1 := by
        unfold total_pages
        have h1 : items.length + P - 1 = P * (q + 1) + (r - 1) := by omega
        rw [h1, Nat.mul_add_div hP, Nat.div_eq_of_lt (show r - 1 < P by omega)]
      have hslice : (page_slice items P
          (total_pages items.length P - 1)).length = r := by
        rw [htp]
        simp only [page_slice, Nat.add_sub_cancel]
        rw [List.length_take, List.length_drop]
        have hc : q * P = P * q := Nat.mul_comm _ _
        omega
      rw [if_neg h0, hslice]

/-- Witness for C7: five items with a page size of two give three pages,
page 0 renders the first two, the last page renders one item. -/
theorem send_paginated_message_pagination_witness :
    total_pages ([10, 20, 30, 40, 50] : List Nat).length 2
      = ([10, 20, 30, 40, 50] : List Nat).length ⌈/⌉ 2 ∧
    page_slice ([10, 20, 30, 40, 50] : List Nat) 2 0
      = ([10, 20, 30, 40, 50] : List Nat).take 2 ∧
    (page_slice ([10, 20, 30, 40, 50] : List Nat) 2
        (total_pages ([10, 20, 30, 40, 50] : List Nat).length 2 - 1)).length
      = if ([10, 20, 30, 40, 50] : List Nat).length % 2 = 0 then 2
        else ([10, 20, 30, 40, 50] : List Nat).length % 2 :=
  send_paginated_message_pagination [10, 20, 30, 40, 50] 2
    (by decide) (by decide)

/-- C8 counterexample: the public brands endpoint does not order by name;
on a store whose insertion order is not name order it returns the rows
unsorted, so the claim that every brand read is ordered by name is false. -/
theorem api_get_brands_not_sorted_cex :
    ¬ (∀ db : Db, List.Pairwise (fun x y : BrandJson => x.name ≤ y.name)
        (api_brand_rows db)) := by
  intro h
  have h2 := h exDbUnsorted
  have hrows : api_brand_rows exDbUnsorted = [⟨1, "b"⟩, ⟨2, "a"⟩] := rfl
  rw [hrows] at h2
  have hba : ("b" : String) ≤ "a" :=
    (List.pairwise_cons.mp h2).1 ⟨2, "a"⟩ (by simp)
  have hab : ("a" : String) < "b" := by
    rw [String.lt_iff_toList_lt]
    show (['a'] : List Char) < ['b']
    have hchar : ('a' : Char) < 'b' := by decide
    exact List.Lex.rel hchar
  exact absurd hba (not_le.mpr hab)

/-- C8 (amended): the admin flow's brand list (get_brands in
src/bot/admin.py) is ordered by name and contains exactly the stored
brands, while the public API returns brands and a category's products in
plain stored order, applying no ordering. -/
theorem brand_and_product_read_ordering (db : Db) :
    List.Pairwise (fun a b : Brand => a.name ≤ b.name) (bot_get_brands db) ∧
    (bot_get_brands db).Perm db.brands ∧
    api.get_brands (Except.ok db)
      = ApiResponse.ok (db.brands.map (fun b => ⟨b.id, b.name⟩)) ∧
    (∀ category_id, api.get_products category_id (Except.ok db)
      = ApiResponse.ok
          ((db.products.filter (fun p => p.category_id == category_id)).map
            (fun p => ⟨p.id, p.name, p.price, p.photo_url, p.description⟩))) := by
  refine ⟨?_, List.mergeSort_perm _ _, rfl, fun _ => rfl⟩
  have hs := @List.sorted_mergeSort Brand
    (fun a b : Brand => decide (a.name ≤ b.name))
    (fun a b c hab hbc => by
      simp only [decide_eq_true_eq] at hab hbc ⊢
      exact le_trans hab hbc)
    (fun a b => by
      simp only [Bool.or_eq_true, decide_eq_true_eq]
      exact le_total a.name b.name)
    db.brands
  exact hs.imp (fun h => by simpa using h)

/-- C9: a request for categories of an unknown brand id, or for products
of an unknown category id, returns an empty list with a success status,
not an error. -/
theorem api_unknown_ids_empty
    (db : Db) (brand_id category_id : Nat)
    (hb : ∀ c ∈ db.categories, c.brand_id ≠ brand_id)
    (hp : ∀ p ∈ db.products, p.category_id ≠ category_id) :
    api.get_categories brand_id (Except.ok db) = ApiResponse.ok [] ∧
    api.get_products category_id (Except.ok db) = ApiResponse.ok [] := by
  constructor
  · have : db.categories.filter (fun c => c.brand_id == brand_id) = [] := by
      simp only [List.filter_eq_nil_iff, beq_iff_eq]
      exact hb
    simp [api.get_categories, this]
  · have : db.products.filter (fun p => p.category_id == category_id) = [] := by
      simp only [List.filter_eq_nil_iff, beq_iff_eq]
      exact hp
    simp [api.get_products, this]

/-- Witness for C9: exWorld's store holds no brand 99 and no category 99. -/
theorem api_unknown_ids_empty_witness :
    api.get_categories 99 (Except.ok exWorld.db) = ApiResponse.ok [] ∧
    api.get_products 99 (Except.ok exWorld.db) = ApiResponse.ok [] :=
  api_unknown_ids_empty exWorld.db 99 99 (by decide) (by decide)

/-- find? after update_product: the first product row carrying the id has
the updated description. -/
theorem find_update_description (l : List Product) (product_id : Nat)
    (v : Option String)
    (hex : l.any (fun p => p.id == product_id) = true) :
    ((l.map (fun p => if p.id == product_id
        then { p with description := v } else p)).find?
      (fun p => p.id == product_id)).map Product.description = some v := by
  induction l with
  | nil => simp at hex
  | cons a t ih =>
    by_cases h : a.id = product_id
    · simp [List.find?_cons, h]
    · have hex2 : t.any (fun p => p.id == product_id) = true := by
        simpa [List.any_cons, h] using hex
      simpa [List.find?_cons, h] using ih hex2

/-- C10: at the description steps of the product flows the input - is a
sentinel for no description: a product created with description - (or
edited to -) is stored with a null description, while any other text is
stored verbatim. -/
theorem dash_description_sentinel
    (w : World) (text : String) (parse_price : String → Option ℚ)
    (nm : String) (pr : ℚ) (ph : String) (cid pid : Nat)
    (hn : w.scratch.data.name = some nm)
    (hp : w.scratch.data.price = some pr)
    (hph : w.scratch.data.photo_url = some ph)
    (hc : w.scratch.data.category_id = some cid)
    (hf : w.scratch.data.field = some "description")
    (hpid : w.scratch.data.product_id = some pid)
    (hex : product_exists w.db pid = true) :
    added_description (add_product_finish true text w)
      = some (if text = "-" then none else some text) ∧
    product_description_in (save_product_changes parse_price true text w) pid
      = some (if text = "-" then none else some text) := by
  constructor
  · simp only [add_product_finish, hn, hp, hph, hc, added_description]
    simp [List.getLast?_concat]
  · simp only [save_product_changes, hf, hpid, product_exists] at *
    simp only [product_description_in, update_product]
    simp only [if_pos rfl, hex, Bool.and_self, if_true]
    exact find_update_description w.db.products pid _ hex

/-- Witness for C10: storing the - sentinel for product 1 of exWorld,
through both the add flow and the edit flow. -/
theorem dash_description_sentinel_witness :
    added_description (add_product_finish true "-"
        (World.mk exWorld.db
          ⟨some FlowState.AddStates_product_description,
           { category_id := some 1, name := some "Boot",
             price := some (50 : ℚ), photo_url := some "products/b.jpg",
             product_id := some 1, field := some "description" }⟩))
      = some (if "-" = "-" then none else some "-") ∧
    product_description_in (save_product_changes (fun _ => none) true "-"
        (World.mk exWorld.db
          ⟨some FlowState.AddStates_product_description,
           { category_id := some 1, name := some "Boot",
             price := some (50 : ℚ), photo_url := some "products/b.jpg",
             product_id := some 1, field := some "description" }⟩)) 1
      = some (if "-" = "-" then none else some "-") :=
  dash_description_sentinel
    (World.mk exWorld.db
      ⟨some FlowState.AddStates_product_description,
       { category_id := some 1, name := some "Boot",
         price := some (50 : ℚ), photo_url := some "products/b.jpg",
         product_id := some 1, field := some "description" }⟩)
    "-" (fun _ => none) "Boot" (50 : ℚ) "products/b.jpg" 1 1
    rfl rfl rfl rfl rfl rfl (by decide)

end TgShop
